import Mathlib

/-!
Verification development for the vtop metrics acquisition and normalization
pipeline.  The definitions below are shallow embeddings of the Python source:

* `splitOnZero`, `get_metrics` embed `AppleSiliconProvider.get_metrics`
  (src/vtop/providers/apple_silicon.py, lines 85-116): the raw byte buffer is
  split on the null byte delimiter, the last blob is decoded, and on failure a
  single fallback decode of the second-to-last blob is attempted.  The decode
  step (plistlib.loads plus the field extraction helpers) is abstracted as a
  function parameter `dec` returning `Option`, since the claims quantify over
  its success or failure.
* `set_power_limits` embeds `AppleSiliconProvider._set_power_limits`.
* `detect_architecture`, `select_arch`, `get_system_provider` embed
  src/vtop/providers/factory.py as pure functions of the probed strings.
* `Sample`, `LoopState`, `Params`, `dequeAppend`, `get_avg`, `power_pct`,
  `applySample`, `maybeRestart`, `loopIter`, `runLoop` embed the metric
  handling of the session loop in src/vtop/vtop.py (lines 352-508).
* `intel_get_metrics` embeds `IntelProvider.get_metrics`
  (src/vtop/providers/intel.py, lines 62-126).

Machine floats are modelled as rationals, Python `int()` truncation as
`pyInt`.
-/

namespace Vtop

/-! ## Sample Parser (AppleSiliconProvider.get_metrics) -/

/-- Python `bytes.split(b'\x00')`: split a byte buffer on every null byte.
The result is always a non-empty list; the empty buffer yields `[[]]`. -/
def splitOnZero : List Nat → List (List Nat)
  | [] => [[]]
  | b :: rest =>
    if b = 0 then [] :: splitOnZero rest
    else
      match splitOnZero rest with
      | [] => [[b]]
      | h :: t => (b :: h) :: t

/-- `AppleSiliconProvider.get_metrics` (apple_silicon.py lines 85-116),
as a pure function of the file contents `buf` and of the record decoder
`dec` (plistlib.loads composed with the parse helpers and the timestamp
lookup, all of which raise together inside one `try`).  Returns the parsed
result together with the number of decode attempts made:
decode the last blob; on failure, if there are at least two blobs and the
second-to-last is non-empty, decode it once; otherwise give up with `none`. -/
def get_metrics {α : Type} (dec : List Nat → Option α) (buf : List Nat) :
    Option α × Nat :=
  let data := splitOnZero buf
  match dec ((data.getLast?).getD []) with
  | some m => (some m, 1)
  | none =>
    if 1 < data.length then
      let entry := data.getD (data.length - 2) []
      if 0 < entry.length then (dec entry, 2) else (none, 1)
    else (none, 1)

theorem splitOnZero_ne_nil (l : List Nat) : splitOnZero l ≠ [] := by
  induction l with
  | nil => simp [splitOnZero]
  | cons b rest ih =>
    simp only [splitOnZero]
    split
    · simp
    · split
      · simp
      · simp

/-! ## Provider Factory (factory.py) -/

/-- Whether `pat` occurs at the start of `s` (character lists). -/
def listStartsWith : List Char → List Char → Bool
  | [], _ => true
  | _ :: _, [] => false
  | a :: as, b :: bs => a = b && listStartsWith as bs

/-- Whether `pat` occurs as a contiguous run inside `s` (character lists). -/
def listHasSub (pat : List Char) : List Char → Bool
  | [] => pat.isEmpty
  | b :: bs => listStartsWith pat (b :: bs) || listHasSub pat bs

/-- Python `pat in s` on strings: substring containment. -/
def strHasSub (s pat : String) : Bool := listHasSub pat.data s.data

/-- Python `str.lower()`. -/
def strLower (s : String) : String := ⟨s.data.map Char.toLower⟩

/-- `detect_architecture` (factory.py lines 13-43) as a pure function of the
probed strings: `platform.system()`, the `machdep.cpu.brand_string` sysctl
output, and `platform.machine()`.  Non-Darwin hosts are unknown; otherwise the
brand string is probed for the vendor substrings "Apple" then "Intel";
otherwise the lowercased machine string is compared against the known
spellings of 64-bit ARM and of x86. -/
def detect_architecture (system brand machine : String) : String :=
  if system ≠ "Darwin" then "unknown"
  else if strHasSub brand "Apple" then "apple_silicon"
  else if strHasSub brand "Intel" then "intel"
  else
    let m := strLower machine
    if m = "arm64" ∨ m = "aarch64" then "apple_silicon"
    else if m = "x86_64" ∨ m = "i386" ∨ m = "i686" then "intel"
    else "unknown"

/-- The architecture tag chosen by `get_system_provider` (factory.py line 60):
`force if force else detect_architecture()`.  A `some` override wins whenever
it is truthy, i.e. a non-empty string. -/
def select_arch (force : Option String) (system brand machine : String) :
    String :=
  match force with
  | some f => if f = "" then detect_architecture system brand machine else f
  | none => detect_architecture system brand machine

/-- The two concrete providers the factory can construct. -/
inductive SystemProviderKind where
  | appleSilicon : SystemProviderKind
  | intel : SystemProviderKind
deriving DecidableEq

/-- The RuntimeError message raised for an unsupported architecture
(factory.py lines 67-71); it names the detected OS and machine strings. -/
def unsupported_message (arch system machine : String) : String :=
  "Unsupported or unknown architecture: " ++ arch ++
    ("\nvtop currently supports Apple Silicon and Intel CPUs on macOS.\nDetected system: " ++
      (system ++ (" " ++ machine)))

/-- `get_system_provider` (factory.py lines 46-71): construct the provider for
the selected architecture tag, or fail with a descriptive hard error.  There
is no fallback provider. -/
def get_system_provider (force : Option String)
    (system brand machine : String) : Except String SystemProviderKind :=
  let arch := select_arch force system brand machine
  if arch = "apple_silicon" then Except.ok SystemProviderKind.appleSilicon
  else if arch = "intel" then Except.ok SystemProviderKind.intel
  else Except.error (unsupported_message arch system machine)

/-! ## Static power-limit table (AppleSiliconProvider._set_power_limits) -/

/-- `AppleSiliconProvider._set_power_limits` (apple_silicon.py lines
169-196), returning the `(cpu_max_power, gpu_max_power)` pair it stores into
the SoC profile.  M1-family chips and the M2 are matched by exact name; M3
and M4 families by substring; every other name receives the defaults. -/
def set_power_limits (name : String) : Nat × Nat :=
  if name = "Apple M1 Max" then (30, 60)
  else if name = "Apple M1 Pro" then (30, 30)
  else if name = "Apple M1" then (20, 20)
  else if name = "Apple M1 Ultra" then (60, 120)
  else if name = "Apple M2" then (25, 15)
  else if strHasSub name "M3" then (30, 30)
  else if strHasSub name "M4" then (35, 35)
  else (20, 20)

/-- Modelled from the spec: the power-limit table "keyed by exact chip name
with a conservative default for unrecognized names" — every family entry, the
M3 and M4 included, is an exact-name key.  Used only for comparison with
`set_power_limits`, the function the source actually implements. -/
def set_power_limits_exact (name : String) : Nat × Nat :=
  if name = "Apple M1 Max" then (30, 60)
  else if name = "Apple M1 Pro" then (30, 30)
  else if name = "Apple M1" then (20, 20)
  else if name = "Apple M1 Ultra" then (60, 120)
  else if name = "Apple M2" then (25, 15)
  else if name = "Apple M3" then (30, 30)
  else if name = "Apple M4" then (35, 35)
  else (20, 20)

/-! ## Session loop and aggregation (vtop.py, main, lines 352-508) -/

/-- Python `int()` on a real value: truncation toward zero. -/
def pyInt (q : ℚ) : ℤ := if 0 ≤ q then ⌊q⌋ else ⌈q⌉

/-- The metric content of one `get_metrics` tuple the session loop consumes:
the power fields of the cpu-metrics dict and the sample timestamp. -/
structure Sample where
  cpu_W : ℚ
  gpu_W : ℚ
  package_W : ℚ
  timestamp : ℚ
deriving DecidableEq

/-- The loop configuration: `args.interval`, the deque capacity
`int(args.avg / args.interval)`, `args.max_count`, and the resolved
`cpu_max_power` / `gpu_max_power` ceilings (vtop.py lines 352-353, 375-376). -/
structure Params where
  interval : ℚ
  avg_capacity : Nat
  max_count : Nat
  cpu_max_power : ℚ
  gpu_max_power : ℚ
deriving DecidableEq

/-- The mutable state of the session loop that the metric claims are about:
`last_timestamp`, the three peak trackers, the two power deques, the
sequences of power-utilization percentages pushed to the two power charts,
the restart counter `count`, and the number of sampling-process restarts
performed (each one changes `timecode`). -/
structure LoopState where
  last_timestamp : ℚ
  cpu_peak_power : ℚ
  gpu_peak_power : ℚ
  package_peak_power : ℚ
  avg_cpu_power_list : List ℚ
  avg_gpu_power_list : List ℚ
  cpu_pct_log : List ℤ
  gpu_pct_log : List ℤ
  count : Nat
  restarts : Nat
deriving DecidableEq

/-- The loop state right after initialization (vtop.py lines 355-357,
375-376, 387): peaks zero, deques empty, `count = 0`; `last_timestamp` is the
timestamp of the blocking first reading. -/
def initLoopState (t0 : ℚ) : LoopState :=
  { last_timestamp := t0
    cpu_peak_power := 0
    gpu_peak_power := 0
    package_peak_power := 0
    avg_cpu_power_list := []
    avg_gpu_power_list := []
    cpu_pct_log := []
    gpu_pct_log := []
    count := 0
    restarts := 0 }

/-- `int(args.avg / args.interval)`: the deque capacity (vtop.py lines
375-376).  For positive integers, `int` of the true quotient is the floor,
i.e. natural division.  There is no lower bound: `avg < interval` gives 0. -/
def avg_capacity (avg interval : Nat) : Nat := avg / interval

/-- `collections.deque(maxlen := cap).append x`: append on the right,
evicting from the left whatever exceeds the capacity. -/
def dequeAppend (cap : Nat) (q : List ℚ) (x : ℚ) : List ℚ :=
  (q ++ [x]).drop ((q ++ [x]).length - cap)

/-- `get_avg` (vtop.py lines 372-373): arithmetic mean of the deque contents,
0 when empty. -/
def get_avg (l : List ℚ) : ℚ := if l = [] then 0 else l.sum / l.length

/-- `min(100, int(w / max_power * 100))` (vtop.py lines 499-500): the
power-utilization percentage pushed to a power chart. -/
def power_pct (w max_power : ℚ) : ℤ := min 100 (pyInt (w / max_power * 100))

/-- Modelled from the spec: `min(100, round(instantaneous / max_draw * 100))`
— the spec's rounding variant of the utilization percentage, stated only for
comparison with `power_pct`, the truncating formula the source implements. -/
def power_pct_rounded (w max_power : ℚ) : ℤ := min 100 (round (w / max_power * 100))

/-- `soc_info_dict["cpu_max_power"] or 50` (vtop.py line 352): Python `or`
replaces a falsy value (`None` or `0`) with the default ceiling 50. -/
def resolve_cpu_max (o : Option Nat) : Nat :=
  match o with
  | some v => if v = 0 then 50 else v
  | none => 50

/-- `soc_info_dict["gpu_max_power"] or 25` (vtop.py line 353). -/
def resolve_gpu_max (o : Option Nat) : Nat :=
  match o with
  | some v => if v = 0 then 25 else v
  | none => 25

/-- The body of the accepted-sample branch (vtop.py lines 414-508, metric
updates only): update `last_timestamp`, divide the raw watt fields by the
sampling interval, bump each peak when exceeded, append to the power deques,
and push the clamped utilization percentages to the charts. -/
def applySample (p : Params) (st : LoopState) (s : Sample) : LoopState :=
  let cpu_w := s.cpu_W / p.interval
  let gpu_w := s.gpu_W / p.interval
  let pkg_w := s.package_W / p.interval
  { st with
    last_timestamp := s.timestamp
    cpu_peak_power := if cpu_w > st.cpu_peak_power then cpu_w else st.cpu_peak_power
    gpu_peak_power := if gpu_w > st.gpu_peak_power then gpu_w else st.gpu_peak_power
    package_peak_power := if pkg_w > st.package_peak_power then pkg_w else st.package_peak_power
    avg_cpu_power_list := dequeAppend p.avg_capacity st.avg_cpu_power_list cpu_w
    avg_gpu_power_list := dequeAppend p.avg_capacity st.avg_gpu_power_list gpu_w
    cpu_pct_log := st.cpu_pct_log ++ [power_pct cpu_w p.cpu_max_power]
    gpu_pct_log := st.gpu_pct_log ++ [power_pct gpu_w p.gpu_max_power] }

/-- The restart policy at the top of each loop iteration (vtop.py lines
401-407): when `max_count > 0` and `count` has reached it, the powermetrics
process is restarted under a fresh timecode and `count` restarts from zero;
`count` is then incremented.  No metric state is touched. -/
def maybeRestart (p : Params) (st : LoopState) : LoopState :=
  if 0 < p.max_count then
    if p.max_count ≤ st.count then
      { st with count := 0 + 1, restarts := st.restarts + 1 }
    else { st with count := st.count + 1 }
  else st

/-- One iteration of the session loop (vtop.py lines 401-508): restart check,
then poll; a `none` poll does nothing, a sample with a timestamp not strictly
greater than `last_timestamp` is discarded, and otherwise the sample is
accepted and processed.  Also returns the accepted sample, when any. -/
def loopIter (p : Params) (st : LoopState) (ready : Option Sample) :
    LoopState × Option Sample :=
  let st1 := maybeRestart p st
  match ready with
  | none => (st1, none)
  | some s =>
    if st1.last_timestamp < s.timestamp then (applySample p st1 s, some s)
    else (st1, none)

/-- The session loop run over a finite list of poll results, returning the
final state and the subsequence of accepted samples in processing order. -/
def runLoop (p : Params) (st : LoopState) :
    List (Option Sample) → LoopState × List Sample
  | [] => (st, [])
  | r :: rest =>
    let step := loopIter p st r
    let res := runLoop p step.1 rest
    (res.1, step.2.toList ++ res.2)

/-- The `some` entries of a list of poll results, in order. -/
def somes {α : Type} : List (Option α) → List α
  | [] => []
  | none :: r => somes r
  | some a :: r => a :: somes r

/-! ## Intel provider (intel.py, IntelProvider.get_metrics) -/

/-- The OS readings `IntelProvider.get_metrics` consumes in one call: the
per-core busy percentages from `psutil.cpu_percent(percpu=True)`, the
per-core current frequencies in MHz (after the fallback normalization of
lines 71-84 they are one integer per core), the probed thermal string, and
`time.time()`. -/
structure IntelEnv where
  per_cpu_percent : List ℚ
  cpu_freq : List ℤ
  thermal : String
  timestamp : ℚ

/-- The cpu-metrics dict built by `IntelProvider.get_metrics` (intel.py lines
87-109): no E-cores, every core a P-core, all power fields hard-coded to
zero, per-core truncated percentages and frequencies, and the cluster
averages over all cores. -/
structure IntelCpuMetrics where
  e_core : List Nat
  p_core : List Nat
  cpu_W : ℚ
  gpu_W : ℚ
  package_W : ℚ
  ane_W : ℚ
  per_core_active : List ℤ
  per_core_freq_Mhz : List ℤ
  cluster_active : ℤ
  cluster_freq_Mhz : ℤ

/-- The gpu-metrics dict built by `IntelProvider.get_metrics` (intel.py lines
112-115): both fields hard-coded to zero. -/
structure IntelGpuMetrics where
  freq_MHz : ℤ
  active : ℤ

/-- `IntelProvider.get_metrics` (intel.py lines 62-126) on a successful call,
as a function of the OS readings: the `(cpu_metrics, gpu_metrics,
thermal_pressure, timestamp)` content of the returned tuple (the reserved
fourth slot is always `None` and is omitted). -/
def intel_get_metrics (env : IntelEnv) :
    IntelCpuMetrics × IntelGpuMetrics × String × ℚ :=
  let per := env.per_cpu_percent
  let cpu_metrics : IntelCpuMetrics :=
    { e_core := []
      p_core := List.range per.length
      cpu_W := 0
      gpu_W := 0
      package_W := 0
      ane_W := 0
      per_core_active := (per.zip env.cpu_freq).map (fun pf => pyInt pf.1)
      per_core_freq_Mhz := (per.zip env.cpu_freq).map (fun pf => pf.2)
      cluster_active := if per = [] then 0 else pyInt (per.sum / per.length)
      cluster_freq_Mhz :=
        if per = [] then 0
        else pyInt ((env.cpu_freq.map (fun z => (z : ℚ))).sum / env.cpu_freq.length) }
  let gpu_metrics : IntelGpuMetrics := { freq_MHz := 0, active := 0 }
  (cpu_metrics, gpu_metrics, env.thermal, env.timestamp)

/-- The `Sample` the session loop extracts from one Intel `get_metrics`
tuple: the power fields of the cpu-metrics dict and the timestamp. -/
def intel_sample (env : IntelEnv) : Sample :=
  { cpu_W := (intel_get_metrics env).1.cpu_W
    gpu_W := (intel_get_metrics env).1.gpu_W
    package_W := (intel_get_metrics env).1.package_W
    timestamp := (intel_get_metrics env).2.2.2 }

/-! ## Helper lemmas -/

theorem maybeRestart_last_timestamp (p : Params) (st : LoopState) :
    (maybeRestart p st).last_timestamp = st.last_timestamp := by
  unfold maybeRestart
  split
  · split <;> rfl
  · rfl

theorem maybeRestart_cpu_peak (p : Params) (st : LoopState) :
    (maybeRestart p st).cpu_peak_power = st.cpu_peak_power := by
  unfold maybeRestart
  split
  · split <;> rfl
  · rfl

theorem maybeRestart_gpu_peak (p : Params) (st : LoopState) :
    (maybeRestart p st).gpu_peak_power = st.gpu_peak_power := by
  unfold maybeRestart
  split
  · split <;> rfl
  · rfl

theorem maybeRestart_package_peak (p : Params) (st : LoopState) :
    (maybeRestart p st).package_peak_power = st.package_peak_power := by
  unfold maybeRestart
  split
  · split <;> rfl
  · rfl

theorem maybeRestart_cpu_list (p : Params) (st : LoopState) :
    (maybeRestart p st).avg_cpu_power_list = st.avg_cpu_power_list := by
  unfold maybeRestart
  split
  · split <;> rfl
  · rfl

theorem maybeRestart_gpu_list (p : Params) (st : LoopState) :
    (maybeRestart p st).avg_gpu_power_list = st.avg_gpu_power_list := by
  unfold maybeRestart
  split
  · split <;> rfl
  · rfl

theorem maybeRestart_cpu_pct_log (p : Params) (st : LoopState) :
    (maybeRestart p st).cpu_pct_log = st.cpu_pct_log := by
  unfold maybeRestart
  split
  · split <;> rfl
  · rfl

theorem maybeRestart_gpu_pct_log (p : Params) (st : LoopState) :
    (maybeRestart p st).gpu_pct_log = st.gpu_pct_log := by
  unfold maybeRestart
  split
  · split <;> rfl
  · rfl

theorem applySample_last_timestamp (p : Params) (st : LoopState) (s : Sample) :
    (applySample p st s).last_timestamp = s.timestamp := rfl

/-- Accepted timestamps are strictly increasing along a run, starting above
the initial `last_timestamp`. -/
theorem runLoop_timestamps_chain (p : Params) :
    ∀ (xs : List (Option Sample)) (st : LoopState),
      List.Chain' (· < ·)
        (st.last_timestamp :: ((runLoop p st xs).2.map Sample.timestamp))
  | [], st => by simp [runLoop]
  | none :: rest, st => by
    have ih := runLoop_timestamps_chain p rest (maybeRestart p st)
    rw [maybeRestart_last_timestamp] at ih
    simpa [runLoop, loopIter] using ih
  | some s :: rest, st => by
    by_cases h : (maybeRestart p st).last_timestamp < s.timestamp
    · have ih := runLoop_timestamps_chain p rest (applySample p (maybeRestart p st) s)
      rw [applySample_last_timestamp] at ih
      have hlt : st.last_timestamp < s.timestamp := by
        rwa [maybeRestart_last_timestamp] at h
      simp only [runLoop, loopIter, if_pos h, Option.toList_some, List.cons_append,
        List.nil_append, List.map_cons]
      exact List.chain'_cons.mpr ⟨hlt, ih⟩
    · have ih := runLoop_timestamps_chain p rest (maybeRestart p st)
      rw [maybeRestart_last_timestamp] at ih
      simpa [runLoop, loopIter, if_neg h] using ih

/-- The accepted samples form a sublist of the delivered samples: nothing is
re-processed, duplicated or reordered. -/
theorem runLoop_accepted_sublist (p : Params) :
    ∀ (xs : List (Option Sample)) (st : LoopState),
      List.Sublist (runLoop p st xs).2 (somes xs)
  | [], _ => by simp [runLoop, somes]
  | none :: rest, st => by
    simpa [runLoop, loopIter, somes] using
      runLoop_accepted_sublist p rest (maybeRestart p st)
  | some s :: rest, st => by
    by_cases h : (maybeRestart p st).last_timestamp < s.timestamp
    · have ih := runLoop_accepted_sublist p rest (applySample p (maybeRestart p st) s)
      simp only [runLoop, loopIter, if_pos h, Option.toList_some, List.cons_append,
        List.nil_append, somes]
      exact List.Sublist.cons₂ s ih
    · have ih := runLoop_accepted_sublist p rest (maybeRestart p st)
      simp only [runLoop, loopIter, if_neg h, Option.toList_none, List.nil_append, somes]
      exact List.Sublist.cons s ih

theorem applySample_cpu_peak_mono (p : Params) (st : LoopState) (s : Sample) :
    st.cpu_peak_power ≤ (applySample p st s).cpu_peak_power := by
  simp only [applySample]
  split
  · exact le_of_lt (by assumption)
  · exact le_refl _

theorem applySample_gpu_peak_mono (p : Params) (st : LoopState) (s : Sample) :
    st.gpu_peak_power ≤ (applySample p st s).gpu_peak_power := by
  simp only [applySample]
  split
  · exact le_of_lt (by assumption)
  · exact le_refl _

theorem applySample_package_peak_mono (p : Params) (st : LoopState) (s : Sample) :
    st.package_peak_power ≤ (applySample p st s).package_peak_power := by
  simp only [applySample]
  split
  · exact le_of_lt (by assumption)
  · exact le_refl _

theorem loopIter_peaks_mono (p : Params) (st : LoopState) (r : Option Sample) :
    st.cpu_peak_power ≤ (loopIter p st r).1.cpu_peak_power ∧
    st.gpu_peak_power ≤ (loopIter p st r).1.gpu_peak_power ∧
    st.package_peak_power ≤ (loopIter p st r).1.package_peak_power := by
  unfold loopIter
  match r with
  | none =>
    simp [maybeRestart_cpu_peak, maybeRestart_gpu_peak, maybeRestart_package_peak]
  | some s =>
    by_cases h : (maybeRestart p st).last_timestamp < s.timestamp
    · simp only [if_pos h]
      refine ⟨?_, ?_, ?_⟩
      · rw [← maybeRestart_cpu_peak p st]
        exact applySample_cpu_peak_mono p (maybeRestart p st) s
      · rw [← maybeRestart_gpu_peak p st]
        exact applySample_gpu_peak_mono p (maybeRestart p st) s
      · rw [← maybeRestart_package_peak p st]
        exact applySample_package_peak_mono p (maybeRestart p st) s
    · simp [if_neg h, maybeRestart_cpu_peak, maybeRestart_gpu_peak,
        maybeRestart_package_peak]

/-- Peaks never decrease along a run of the session loop. -/
theorem runLoop_peaks_mono (p : Params) :
    ∀ (xs : List (Option Sample)) (st : LoopState),
      st.cpu_peak_power ≤ (runLoop p st xs).1.cpu_peak_power ∧
      st.gpu_peak_power ≤ (runLoop p st xs).1.gpu_peak_power ∧
      st.package_peak_power ≤ (runLoop p st xs).1.package_peak_power
  | [], st => by simp [runLoop]
  | r :: rest, st => by
    have h1 := loopIter_peaks_mono p st r
    have ih := runLoop_peaks_mono p rest (loopIter p st r).1
    simp only [runLoop]
    exact ⟨le_trans h1.1 ih.1, le_trans h1.2.1 ih.2.1, le_trans h1.2.2 ih.2.2⟩

theorem get_avg_of_all_zero (l : List ℚ) (h : ∀ x ∈ l, x = 0) :
    get_avg l = 0 := by
  unfold get_avg
  split
  · rfl
  · rw [List.sum_eq_zero h, zero_div]

theorem power_pct_zero (max_power : ℚ) : power_pct 0 max_power = 0 := by
  simp [power_pct, pyInt]

theorem dequeAppend_all_zero (cap : Nat) (q : List ℚ) (h : ∀ x ∈ q, x = 0) :
    ∀ x ∈ dequeAppend cap q 0, x = 0 := by
  intro x hx
  have hx2 : x ∈ q ++ [(0 : ℚ)] := List.drop_subset _ _ hx
  rcases List.mem_append.mp hx2 with h1 | h1
  · exact h x h1
  · simpa using h1

/-- All-zero aggregation state: the invariant a stream of zero-watt samples
preserves. -/
def ZeroPowerState (st : LoopState) : Prop :=
  st.cpu_peak_power = 0 ∧ st.gpu_peak_power = 0 ∧ st.package_peak_power = 0 ∧
  (∀ x ∈ st.avg_cpu_power_list, x = 0) ∧ (∀ x ∈ st.avg_gpu_power_list, x = 0) ∧
  (∀ x ∈ st.cpu_pct_log, x = 0) ∧ (∀ x ∈ st.gpu_pct_log, x = 0)

theorem maybeRestart_zero (p : Params) (st : LoopState)
    (h : ZeroPowerState st) : ZeroPowerState (maybeRestart p st) := by
  unfold ZeroPowerState at h ⊢
  rw [maybeRestart_cpu_peak, maybeRestart_gpu_peak, maybeRestart_package_peak,
    maybeRestart_cpu_list, maybeRestart_gpu_list, maybeRestart_cpu_pct_log,
    maybeRestart_gpu_pct_log]
  exact h

theorem applySample_zero (p : Params) (st : LoopState) (s : Sample)
    (hs : s.cpu_W = 0 ∧ s.gpu_W = 0 ∧ s.package_W = 0)
    (h : ZeroPowerState st) : ZeroPowerState (applySample p st s) := by
  obtain ⟨hc, hg, hp⟩ := hs
  obtain ⟨h1, h2, h3, h4, h5, h6, h7⟩ := h
  unfold ZeroPowerState applySample
  rw [hc, hg, hp, zero_div, h1, h2, h3]
  simp only [lt_irrefl, if_neg (lt_irrefl 0), gt_iff_lt]
  refine ⟨rfl, rfl, rfl, ?_, ?_, ?_, ?_⟩
  · exact dequeAppend_all_zero _ _ h4
  · exact dequeAppend_all_zero _ _ h5
  · intro x hx
    rcases List.mem_append.mp hx with hx1 | hx1
    · exact h6 x hx1
    · simpa [power_pct_zero] using hx1
  · intro x hx
    rcases List.mem_append.mp hx with hx1 | hx1
    · exact h7 x hx1
    · simpa [power_pct_zero] using hx1

theorem runLoop_zero (p : Params) :
    ∀ (xs : List (Option Sample)) (st : LoopState),
      (∀ s ∈ somes xs, s.cpu_W = 0 ∧ s.gpu_W = 0 ∧ s.package_W = 0) →
      ZeroPowerState st → ZeroPowerState (runLoop p st xs).1
  | [], st => by
    intro _ h
    simpa [runLoop] using h
  | none :: rest, st => by
    intro hxs h
    have hrest : ∀ s ∈ somes rest, s.cpu_W = 0 ∧ s.gpu_W = 0 ∧ s.package_W = 0 := by
      simpa [somes] using hxs
    simpa [runLoop, loopIter] using
      runLoop_zero p rest (maybeRestart p st) hrest (maybeRestart_zero p st h)
  | some s :: rest, st => by
    intro hxs h
    have hs : s.cpu_W = 0 ∧ s.gpu_W = 0 ∧ s.package_W = 0 := by
      have := hxs s
      simp [somes] at this
      exact this
    have hrest : ∀ u ∈ somes rest, u.cpu_W = 0 ∧ u.gpu_W = 0 ∧ u.package_W = 0 := by
      intro u hu
      exact hxs u (by simp [somes, hu])
    by_cases hacc : (maybeRestart p st).last_timestamp < s.timestamp
    · have h1 := applySample_zero p (maybeRestart p st) s hs (maybeRestart_zero p st h)
      simpa [runLoop, loopIter, if_pos hacc] using
        runLoop_zero p rest (applySample p (maybeRestart p st) s) hrest h1
    · simpa [runLoop, loopIter, if_neg hacc] using
        runLoop_zero p rest (maybeRestart p st) hrest (maybeRestart_zero p st h)

/-! ## String containment lemmas for the factory error message -/

theorem listStartsWith_refl_append (l t : List Char) :
    listStartsWith l (l ++ t) = true := by
  induction l with
  | nil => rfl
  | cons a as ih => simp [listStartsWith, ih]

theorem listHasSub_of_append_left (pat t : List Char) :
    listHasSub pat (pat ++ t) = true := by
  match pat with
  | [] =>
    match t with
    | [] => rfl
    | b :: bs =>
      simp only [listHasSub, List.nil_append, Bool.or_eq_true]
      exact Or.inl rfl
  | a :: as =>
    simp only [listHasSub, List.cons_append, Bool.or_eq_true]
    exact Or.inl (by simpa using listStartsWith_refl_append (a :: as) t)

theorem listHasSub_cons (pat : List Char) (b : Char) (l : List Char)
    (h : listHasSub pat l = true) : listHasSub pat (b :: l) = true := by
  simp [listHasSub, h]

theorem listHasSub_of_append (l1 pat l2 : List Char) :
    listHasSub pat (l1 ++ (pat ++ l2)) = true := by
  induction l1 with
  | nil => simpa using listHasSub_of_append_left pat l2
  | cons b bs ih => exact listHasSub_cons _ _ _ ih

theorem listHasSub_of_append_right (x pat t : List Char)
    (h : listHasSub pat t = true) : listHasSub pat (x ++ t) = true := by
  induction x with
  | nil => simpa using h
  | cons b bs ih => exact listHasSub_cons _ _ _ ih

theorem listHasSub_self (pat : List Char) : listHasSub pat pat = true := by
  have h := listHasSub_of_append_left pat []
  rwa [List.append_nil] at h

/-! ## Claim theorems -/

/-- Claim C1: for every raw byte buffer whose null-byte-delimited record list
has a last record that fails to decode and a non-empty second-to-last record
that decodes successfully, `get_metrics` returns the decoded (normalized)
contents of the second-to-last record, and makes exactly one fallback
attempt (two decode attempts in total). -/
theorem claim_C1_fallback_second_to_last {α : Type} (dec : List Nat → Option α)
    (buf : List Nat) (m : α)
    (h1 : dec (((splitOnZero buf).getLast?).getD []) = none)
    (h2 : 1 < (splitOnZero buf).length)
    (h3 : (splitOnZero buf).getD ((splitOnZero buf).length - 2) [] ≠ [])
    (h4 : dec ((splitOnZero buf).getD ((splitOnZero buf).length - 2) []) = some m) :
    get_metrics dec buf = (some m, 2) := by
  simp only [List.getD_eq_getElem?_getD] at h3 h4
  have hlen : 0 < ((splitOnZero buf)[(splitOnZero buf).length - 2]?.getD []).length :=
    List.length_pos.mpr h3
  simp [get_metrics, h1, h2, hlen, h4]

/-- Decoder used to witness claim C1: accepts exactly the record `[1]`. -/
def c1_dec : List Nat → Option Nat := fun l => if l = [1] then some 7 else none

theorem claim_C1_witness :
    c1_dec (((splitOnZero [1, 0, 2]).getLast?).getD []) = none ∧
    1 < (splitOnZero [1, 0, 2]).length ∧
    (splitOnZero [1, 0, 2]).getD ((splitOnZero [1, 0, 2]).length - 2) [] ≠ [] ∧
    c1_dec ((splitOnZero [1, 0, 2]).getD ((splitOnZero [1, 0, 2]).length - 2) []) = some 7 ∧
    get_metrics c1_dec [1, 0, 2] = (some 7, 2) :=
  ⟨by decide, by decide, by decide, by decide,
    claim_C1_fallback_second_to_last c1_dec [1, 0, 2] 7
      (by decide) (by decide) (by decide) (by decide)⟩

/-- Claim C2: whenever the decode of the last record fails and the fallback
cannot succeed either (no second record, empty second-to-last record, or its
decode also fails) — the empty buffer and the single-malformed-record buffer
included — `get_metrics` returns `none` (NoSampleAvailable); being a total
function into `Option`, it never propagates an exception, and it makes at
most the one fallback attempt. -/
theorem claim_C2_no_sample_available {α : Type} (dec : List Nat → Option α)
    (buf : List Nat)
    (h1 : dec (((splitOnZero buf).getLast?).getD []) = none)
    (h2 : 1 < (splitOnZero buf).length →
      (splitOnZero buf).getD ((splitOnZero buf).length - 2) [] = [] ∨
      dec ((splitOnZero buf).getD ((splitOnZero buf).length - 2) []) = none) :
    (get_metrics dec buf).1 = none ∧ (get_metrics dec buf).2 ≤ 2 := by
  by_cases hl : 1 < (splitOnZero buf).length
  · rcases h2 hl with he | hd
    · simp only [List.getD_eq_getElem?_getD] at he
      have hz : ¬ 0 < ((splitOnZero buf)[(splitOnZero buf).length - 2]?.getD []).length := by
        simp [he]
      simp [get_metrics, h1, hl, hz]
    · simp only [List.getD_eq_getElem?_getD] at hd
      by_cases hne : 0 < ((splitOnZero buf)[(splitOnZero buf).length - 2]?.getD []).length
      · simp [get_metrics, h1, hl, hne, hd]
      · simp [get_metrics, h1, hl, hne]
  · simp [get_metrics, h1, hl]

/-- Decoder used to witness claim C2: rejects every record. -/
def c2_dec : List Nat → Option Nat := fun _ => none

theorem claim_C2_witness :
    c2_dec (((splitOnZero ([] : List Nat)).getLast?).getD []) = none ∧
    (1 < (splitOnZero ([] : List Nat)).length →
      (splitOnZero ([] : List Nat)).getD ((splitOnZero ([] : List Nat)).length - 2) [] = [] ∨
      c2_dec ((splitOnZero ([] : List Nat)).getD ((splitOnZero ([] : List Nat)).length - 2) []) = none) ∧
    (get_metrics c2_dec ([] : List Nat)).1 = none ∧
    (get_metrics c2_dec ([] : List Nat)).2 ≤ 2 :=
  ⟨by decide, by decide,
    claim_C2_no_sample_available c2_dec [] (by decide) (by decide)⟩

/-- Claim C3: along any run of the session loop, the accepted samples have
strictly increasing timestamps (each above the initial `last_timestamp`); the
accepted samples are a sublist of the delivered ones, never re-processed or
reordered; and a sample whose timestamp is not strictly greater than the last
accepted one is discarded without touching any aggregation state (the restart
bookkeeping of `maybeRestart` leaves every metric field unchanged). -/
theorem claim_C3_accepted_strictly_increasing (p : Params) (st : LoopState)
    (xs : List (Option Sample)) (s : Sample)
    (hstale : s.timestamp ≤ st.last_timestamp) :
    List.Chain' (· < ·)
      (st.last_timestamp :: ((runLoop p st xs).2.map Sample.timestamp)) ∧
    List.Sublist (runLoop p st xs).2 (somes xs) ∧
    loopIter p st (some s) = (maybeRestart p st, none) ∧
    (maybeRestart p st).last_timestamp = st.last_timestamp ∧
    (maybeRestart p st).cpu_peak_power = st.cpu_peak_power ∧
    (maybeRestart p st).gpu_peak_power = st.gpu_peak_power ∧
    (maybeRestart p st).package_peak_power = st.package_peak_power ∧
    (maybeRestart p st).avg_cpu_power_list = st.avg_cpu_power_list ∧
    (maybeRestart p st).avg_gpu_power_list = st.avg_gpu_power_list ∧
    (maybeRestart p st).cpu_pct_log = st.cpu_pct_log ∧
    (maybeRestart p st).gpu_pct_log = st.gpu_pct_log := by
  have hnot : ¬ (maybeRestart p st).last_timestamp < s.timestamp := by
    rw [maybeRestart_last_timestamp]
    exact not_lt.mpr hstale
  refine ⟨runLoop_timestamps_chain p xs st, runLoop_accepted_sublist p xs st, ?_,
    maybeRestart_last_timestamp p st, maybeRestart_cpu_peak p st,
    maybeRestart_gpu_peak p st, maybeRestart_package_peak p st,
    maybeRestart_cpu_list p st, maybeRestart_gpu_list p st,
    maybeRestart_cpu_pct_log p st, maybeRestart_gpu_pct_log p st⟩
  simp [loopIter, hnot]

/-- Loop parameters used by concrete witnesses: interval 1 s, averaging
window capacity 2, restart policy disabled, default power ceilings. -/
def params0 : Params := ⟨1, 2, 0, 50, 25⟩

/-- Sample used to witness claim C3: timestamp 0, stale relative to an
initial `last_timestamp` of 0. -/
def sample0 : Sample := ⟨3, 4, 8, 0⟩

theorem claim_C3_witness :
    sample0.timestamp ≤ (initLoopState 0).last_timestamp ∧
    (List.Chain' (· < ·)
      ((initLoopState 0).last_timestamp ::
        ((runLoop params0 (initLoopState 0) []).2.map Sample.timestamp)) ∧
    List.Sublist (runLoop params0 (initLoopState 0) []).2 (somes []) ∧
    loopIter params0 (initLoopState 0) (some sample0) =
      (maybeRestart params0 (initLoopState 0), none) ∧
    (maybeRestart params0 (initLoopState 0)).last_timestamp =
      (initLoopState 0).last_timestamp ∧
    (maybeRestart params0 (initLoopState 0)).cpu_peak_power =
      (initLoopState 0).cpu_peak_power ∧
    (maybeRestart params0 (initLoopState 0)).gpu_peak_power =
      (initLoopState 0).gpu_peak_power ∧
    (maybeRestart params0 (initLoopState 0)).package_peak_power =
      (initLoopState 0).package_peak_power ∧
    (maybeRestart params0 (initLoopState 0)).avg_cpu_power_list =
      (initLoopState 0).avg_cpu_power_list ∧
    (maybeRestart params0 (initLoopState 0)).avg_gpu_power_list =
      (initLoopState 0).avg_gpu_power_list ∧
    (maybeRestart params0 (initLoopState 0)).cpu_pct_log =
      (initLoopState 0).cpu_pct_log ∧
    (maybeRestart params0 (initLoopState 0)).gpu_pct_log =
      (initLoopState 0).gpu_pct_log) :=
  ⟨by decide,
    claim_C3_accepted_strictly_increasing params0 (initLoopState 0) [] sample0 (by decide)⟩

/-- Claim C4 counterexample: the claim asserts a minimum window capacity of
1, but `int(args.avg / args.interval)` has no lower bound — with an averaging
interval of 1 s and a sampling interval of 2 s the deque capacity is 0, not
1, and an appended value is immediately discarded. -/
theorem claim_C4_counterexample :
    avg_capacity 1 2 = 0 ∧ ¬ 1 ≤ avg_capacity 1 2 ∧
    dequeAppend (avg_capacity 1 2) [] 10 = [] := by
  decide

/-- Claim C4 as amended: the rolling window capacity is
`⌊averaging_interval / sampling_interval⌋` with no enforced minimum (it is 0
whenever the averaging interval is smaller than the sampling interval); the
size never exceeds the capacity (append yields `min (size + 1) capacity`
elements); when the window is full and the capacity positive, the oldest
entry is evicted FIFO; the average is the arithmetic mean of the contents and
0 when empty; pushing `[10, 20, 30]` through a capacity-2 window leaves
`[20, 30]` with average 25. -/
theorem claim_C4_amended (avg interval cap : Nat) (q : List ℚ) (x : ℚ)
    (hfull : q.length = cap) (hcap : 0 < cap) :
    avg_capacity avg interval = avg / interval ∧
    (dequeAppend cap q x).length = min (q.length + 1) cap ∧
    dequeAppend cap q x = q.tail ++ [x] ∧
    get_avg [] = 0 ∧
    (q ≠ [] → get_avg q = q.sum / q.length) ∧
    List.foldl (dequeAppend 2) [] [10, 20, 30] = [20, 30] ∧
    get_avg (List.foldl (dequeAppend 2) [] [10, 20, 30]) = 25 := by
  have hfold : List.foldl (dequeAppend 2) ([] : List ℚ) [10, 20, 30] = [20, 30] := by
    decide
  refine ⟨rfl, ?_, ?_, rfl, ?_, hfold, by
    rw [hfold]
    norm_num [get_avg]
    simp⟩
  · simp only [dequeAppend, List.length_drop, List.length_append, List.length_singleton]
    omega
  · have hq : 1 ≤ q.length := by omega
    simp only [dequeAppend, List.length_append, List.length_singleton, hfull]
    rw [Nat.add_sub_cancel_left, List.drop_append_of_le_length hq, List.drop_one]
  · intro hne
    simp [get_avg, hne]

theorem claim_C4_witness :
    ([ (1 : ℚ), 2 ]).length = 2 ∧ 0 < 2 ∧
    (avg_capacity 30 1 = 30 / 1 ∧
    (dequeAppend 2 [(1 : ℚ), 2] 3).length = min ([(1 : ℚ), 2].length + 1) 2 ∧
    dequeAppend 2 [(1 : ℚ), 2] 3 = [(1 : ℚ), 2].tail ++ [3] ∧
    get_avg [] = 0 ∧
    ([(1 : ℚ), 2] ≠ [] → get_avg [(1 : ℚ), 2] = [(1 : ℚ), 2].sum / ([(1 : ℚ), 2]).length) ∧
    List.foldl (dequeAppend 2) [] [10, 20, 30] = [20, 30] ∧
    get_avg (List.foldl (dequeAppend 2) [] [10, 20, 30]) = 25) :=
  ⟨by decide, by decide,
    claim_C4_amended 30 1 2 [(1 : ℚ), 2] 3 (by decide) (by decide)⟩

/-- Loop parameters used by the claim C5 counterexample: interval 1 s,
capacity 30, restart after every sample (`max_count = 1`). -/
def restart_params : Params := ⟨1, 30, 1, 50, 25⟩

/-- Poll results used by the claim C5 counterexample: a 10 W sample, then —
after the max_count restart — a 5 W sample. -/
def restart_inputs : List (Option Sample) :=
  [some ⟨10, 0, 0, 1⟩, some ⟨5, 0, 0, 2⟩]

/-- Claim C5 counterexample: with `max_count = 1` an explicit session restart
happens before the second sample, whose 5 W reading is the first value pushed
in the new session; the claim says the peak is then reset to that first
pushed value, but the CPU peak tracker still holds 10 W from the previous
session — the restart does not reset it. -/
theorem claim_C5_counterexample :
    (runLoop restart_params (initLoopState 0) restart_inputs).1.restarts = 1 ∧
    (runLoop restart_params (initLoopState 0) restart_inputs).2.map Sample.cpu_W
      = [10, 5] ∧
    (runLoop restart_params (initLoopState 0) restart_inputs).1.cpu_peak_power = 10 ∧
    (runLoop restart_params (initLoopState 0) restart_inputs).1.cpu_peak_power ≠ 5 := by
  have h : runLoop restart_params (initLoopState 0) restart_inputs =
      (⟨2, 10, 0, 0, [10, 5], [0, 0], [20, 10], [0, 0], 1, 1⟩,
        [⟨10, 0, 0, 1⟩, ⟨5, 0, 0, 2⟩]) := by
    simp only [runLoop, loopIter, maybeRestart, applySample, restart_params,
      restart_inputs, initLoopState, dequeAppend, power_pct, pyInt]
    norm_num
  rw [h]
  norm_num

/-- Claim C5 as amended: each power peak never decreases across any sequence
of accepted samples; the update on an accepted sample is
`max(current_peak, instantaneous_value)`; the explicit in-loop session
restart (`max_count`) leaves every peak unchanged — peaks are never reset,
neither implicitly nor by that restart; only a fresh program run
reinitializes them to 0, after which the first accepted sample with a
non-negative instantaneous value sets the peak to exactly that value. -/
theorem claim_C5_amended (p : Params) (st : LoopState) (s : Sample)
    (xs : List (Option Sample))
    (hzero : st.cpu_peak_power = 0) (hw : 0 ≤ s.cpu_W / p.interval) :
    st.cpu_peak_power ≤ (runLoop p st xs).1.cpu_peak_power ∧
    st.gpu_peak_power ≤ (runLoop p st xs).1.gpu_peak_power ∧
    st.package_peak_power ≤ (runLoop p st xs).1.package_peak_power ∧
    (applySample p st s).cpu_peak_power = max st.cpu_peak_power (s.cpu_W / p.interval) ∧
    (applySample p st s).gpu_peak_power = max st.gpu_peak_power (s.gpu_W / p.interval) ∧
    (applySample p st s).package_peak_power
      = max st.package_peak_power (s.package_W / p.interval) ∧
    (maybeRestart p st).cpu_peak_power = st.cpu_peak_power ∧
    (maybeRestart p st).gpu_peak_power = st.gpu_peak_power ∧
    (maybeRestart p st).package_peak_power = st.package_peak_power ∧
    (applySample p st s).cpu_peak_power = s.cpu_W / p.interval := by
  have hmax : ∀ a b : ℚ, (if b > a then b else a) = max a b := by
    intro a b
    rcases le_or_lt b a with h | h
    · rw [if_neg (not_lt.mpr h), max_eq_left h]
    · rw [if_pos h, max_eq_right (le_of_lt h)]
  obtain ⟨m1, m2, m3⟩ := runLoop_peaks_mono p xs st
  refine ⟨m1, m2, m3, hmax _ _, hmax _ _, hmax _ _,
    maybeRestart_cpu_peak p st, maybeRestart_gpu_peak p st,
    maybeRestart_package_peak p st, ?_⟩
  rw [show (applySample p st s).cpu_peak_power
      = max st.cpu_peak_power (s.cpu_W / p.interval) from hmax _ _, hzero]
  exact max_eq_right hw

theorem claim_C5_witness :
    (initLoopState 0).cpu_peak_power = 0 ∧ (0 : ℚ) ≤ sample0.cpu_W / params0.interval ∧
    ((initLoopState 0).cpu_peak_power ≤
        (runLoop params0 (initLoopState 0) []).1.cpu_peak_power ∧
    (initLoopState 0).gpu_peak_power ≤
        (runLoop params0 (initLoopState 0) []).1.gpu_peak_power ∧
    (initLoopState 0).package_peak_power ≤
        (runLoop params0 (initLoopState 0) []).1.package_peak_power ∧
    (applySample params0 (initLoopState 0) sample0).cpu_peak_power
      = max (initLoopState 0).cpu_peak_power (sample0.cpu_W / params0.interval) ∧
    (applySample params0 (initLoopState 0) sample0).gpu_peak_power
      = max (initLoopState 0).gpu_peak_power (sample0.gpu_W / params0.interval) ∧
    (applySample params0 (initLoopState 0) sample0).package_peak_power
      = max (initLoopState 0).package_peak_power (sample0.package_W / params0.interval) ∧
    (maybeRestart params0 (initLoopState 0)).cpu_peak_power
      = (initLoopState 0).cpu_peak_power ∧
    (maybeRestart params0 (initLoopState 0)).gpu_peak_power
      = (initLoopState 0).gpu_peak_power ∧
    (maybeRestart params0 (initLoopState 0)).package_peak_power
      = (initLoopState 0).package_peak_power ∧
    (applySample params0 (initLoopState 0) sample0).cpu_peak_power
      = sample0.cpu_W / params0.interval) :=
  ⟨rfl, by norm_num [sample0, params0],
    claim_C5_amended params0 (initLoopState 0) sample0 [] rfl
      (by norm_num [sample0, params0])⟩

/-- Claim C6 counterexample: the claim says the displayed percentage is
`min(100, round(w / max_draw * 100))`, but the code truncates with `int()`:
at 5.35 W against a 50 W ceiling the ratio is 10.7 %, which the code displays
as 10 while the claimed rounding formula gives 11. -/
theorem claim_C6_counterexample :
    power_pct (107 / 20) 50 = 10 ∧
    power_pct_rounded (107 / 20) 50 = 11 ∧
    power_pct (107 / 20) 50 ≠ power_pct_rounded (107 / 20) 50 := by
  have h1 : ((107 : ℚ) / 20) / 50 * 100 = 107 / 10 := by norm_num
  have h2 : power_pct (107 / 20) 50 = 10 := by
    rw [power_pct, pyInt, h1]
    norm_num
  have h3 : power_pct_rounded (107 / 20) 50 = 11 := by
    rw [power_pct_rounded, h1, round_eq]
    norm_num
  exact ⟨h2, h3, by rw [h2, h3]; norm_num⟩

/-- Claim C6 as amended: for every accepted sample the displayed
power-utilization percentage is `min(100, trunc(w / max_draw * 100))` —
truncation toward zero (equal to the floor for the non-negative wattages
involved), not rounding to nearest; it never exceeds 100; when the SoC
profile carries no ceiling (`None`, or a falsy 0) the documented defaults of
50 W (CPU) and 25 W (GPU) are substituted, which are positive, so the
percentage is always defined; and with `cpu_max_power = 30` and 33
instantaneous watts the percentage is clamped to 100, not 110. -/
theorem claim_C6_amended (w max_power : ℚ) (o : Option Nat)
    (hw : 0 ≤ w) (hm : 0 < max_power) :
    power_pct w max_power = min 100 ⌊w / max_power * 100⌋ ∧
    power_pct w max_power ≤ 100 ∧
    0 < resolve_cpu_max o ∧ 0 < resolve_gpu_max o ∧
    resolve_cpu_max none = 50 ∧ resolve_gpu_max none = 25 ∧
    power_pct 33 30 = 100 := by
  have hratio : 0 ≤ w / max_power * 100 :=
    mul_nonneg (div_nonneg hw (le_of_lt hm)) (by norm_num)
  refine ⟨?_, min_le_left _ _, ?_, ?_, rfl, rfl, ?_⟩
  · rw [power_pct, pyInt, if_pos hratio]
  · cases o with
    | none => decide
    | some v =>
      simp only [resolve_cpu_max]
      split
      · decide
      · omega
  · cases o with
    | none => decide
    | some v =>
      simp only [resolve_gpu_max]
      split
      · decide
      · omega
  · have h1 : (33 : ℚ) / 30 * 100 = 110 := by norm_num
    rw [power_pct, pyInt, h1]
    norm_num

theorem claim_C6_witness :
    (0 : ℚ) ≤ 33 ∧ (0 : ℚ) < 30 ∧
    (power_pct 33 30 = min 100 ⌊(33 : ℚ) / 30 * 100⌋ ∧
    power_pct 33 30 ≤ 100 ∧
    0 < resolve_cpu_max (some 30) ∧ 0 < resolve_gpu_max (some 30) ∧
    resolve_cpu_max none = 50 ∧ resolve_gpu_max none = 25 ∧
    power_pct 33 30 = 100) :=
  ⟨by norm_num, by norm_num,
    claim_C6_amended 33 30 (some 30) (by norm_num) (by norm_num)⟩

/-- Claim C7 counterexample: the claim says the power-limit table is keyed
by exact chip name, but M3 and M4 chips are matched by substring: the name
"Apple M3 Pro" is not an exact key of the table, yet receives the M3-family
limits (30, 30) instead of the default (20, 20) that exact keying (the
spec-modelled `set_power_limits_exact`) would produce; even the non-chip
string "xM3x" is recognized. -/
theorem claim_C7_counterexample :
    set_power_limits "Apple M3 Pro" = (30, 30) ∧
    set_power_limits_exact "Apple M3 Pro" = (20, 20) ∧
    set_power_limits "Apple M3 Pro" ≠ set_power_limits_exact "Apple M3 Pro" ∧
    set_power_limits "xM3x" = (30, 30) := by
  refine ⟨by decide, by decide, ?_, by decide⟩
  decide

/-- Claim C7 as amended: the static power-limit table matches the M1 family
and the M2 by exact chip name but the M3 and M4 families by substring; every
chip name recognized by no entry receives the conservative default ceilings
(20, 20); both `cpu_max_power` and `gpu_max_power` are set to a positive
value for every name, so no unset value can propagate into a division. -/
theorem claim_C7_amended (name : String)
    (h1 : name ≠ "Apple M1 Max") (h2 : name ≠ "Apple M1 Pro")
    (h3 : name ≠ "Apple M1") (h4 : name ≠ "Apple M1 Ultra")
    (h5 : name ≠ "Apple M2")
    (h6 : strHasSub name "M3" = false) (h7 : strHasSub name "M4" = false) :
    set_power_limits name = (20, 20) ∧
    (∀ n : String, 0 < (set_power_limits n).1 ∧ 0 < (set_power_limits n).2) := by
  constructor
  · simp [set_power_limits, h1, h2, h3, h4, h5, h6, h7]
  · intro n
    unfold set_power_limits
    repeat' split
    all_goals exact ⟨by norm_num, by norm_num⟩

theorem claim_C7_witness :
    ("RandomChip" : String) ≠ "Apple M1 Max" ∧
    ("RandomChip" : String) ≠ "Apple M1 Pro" ∧
    ("RandomChip" : String) ≠ "Apple M1" ∧
    ("RandomChip" : String) ≠ "Apple M1 Ultra" ∧
    ("RandomChip" : String) ≠ "Apple M2" ∧
    strHasSub "RandomChip" "M3" = false ∧
    strHasSub "RandomChip" "M4" = false ∧
    (set_power_limits "RandomChip" = (20, 20) ∧
      (∀ n : String, 0 < (set_power_limits n).1 ∧ 0 < (set_power_limits n).2)) :=
  ⟨by decide, by decide, by decide, by decide, by decide, by decide, by decide,
    claim_C7_amended "RandomChip" (by decide) (by decide) (by decide) (by decide)
      (by decide) (by decide) (by decide)⟩

/-- Claim C8: provider selection order.  A non-empty explicit override is
taken verbatim, independently of every probed string; the two spellings of
64-bit ARM ("arm64" and "aarch64") are classified identically by the
detection fallback; and when detection yields "unknown", provider
construction fails hard with the RuntimeError message — which contains both
the detected OS string and the detected machine string — and no provider of
any kind is returned. -/
theorem claim_C8_provider_selection (f s b m s2 b2 m2 : String)
    (hf : f ≠ "") (hu : detect_architecture s b m = "unknown") :
    select_arch (some f) s b m = f ∧
    select_arch (some f) s b m = select_arch (some f) s2 b2 m2 ∧
    detect_architecture s2 b2 "arm64" = detect_architecture s2 b2 "aarch64" ∧
    get_system_provider none s b m
      = Except.error (unsupported_message "unknown" s m) ∧
    strHasSub (unsupported_message "unknown" s m) s = true ∧
    strHasSub (unsupported_message "unknown" s m) m = true ∧
    (∀ pr : SystemProviderKind,
      get_system_provider none s b m ≠ Except.ok pr) := by
  have hsel : ∀ s' b' m' : String, select_arch (some f) s' b' m' = f := by
    intro s' b' m'
    simp [select_arch, hf]
  have hnorm : detect_architecture s2 b2 "arm64"
      = detect_architecture s2 b2 "aarch64" := by
    by_cases hd : s2 = "Darwin"
    · subst hd
      by_cases ha : strHasSub b2 "Apple" = true
      · simp [detect_architecture, ha]
      · by_cases hi : strHasSub b2 "Intel" = true
        · simp [detect_architecture, ha, hi]
        · simp only [detect_architecture, ha, hi]
          norm_num
          decide
    · simp [detect_architecture, hd]
  have herr : get_system_provider none s b m
      = Except.error (unsupported_message "unknown" s m) := by
    simp only [get_system_provider, select_arch, hu]
    rw [if_neg (by decide), if_neg (by decide)]
  have hs : strHasSub (unsupported_message "unknown" s m) s = true := by
    simp only [strHasSub, unsupported_message, String.data_append, List.append_assoc]
    exact listHasSub_of_append_right _ _ _
      (listHasSub_of_append_right _ _ _
        (listHasSub_of_append_right _ _ _ (listHasSub_of_append_left _ _)))
  have hm : strHasSub (unsupported_message "unknown" s m) m = true := by
    simp only [strHasSub, unsupported_message, String.data_append, List.append_assoc]
    refine listHasSub_of_append_right _ _ _
      (listHasSub_of_append_right _ _ _
        (listHasSub_of_append_right _ _ _
          (listHasSub_of_append_right _ _ _
            (listHasSub_of_append_right _ _ _ (listHasSub_self _)))))
  refine ⟨hsel s b m, (hsel s b m).trans (hsel s2 b2 m2).symm, hnorm, herr, hs, hm, ?_⟩
  intro pr hok
  rw [herr] at hok
  exact absurd hok (by simp)

theorem claim_C8_witness :
    ("apple_silicon" : String) ≠ "" ∧
    detect_architecture "Linux" "" "riscv" = "unknown" ∧
    (select_arch (some "apple_silicon") "Linux" "" "riscv" = "apple_silicon" ∧
    select_arch (some "apple_silicon") "Linux" "" "riscv"
      = select_arch (some "apple_silicon") "Darwin" "Apple M1" "arm64" ∧
    detect_architecture "Darwin" "Apple M1" "arm64"
      = detect_architecture "Darwin" "Apple M1" "aarch64" ∧
    get_system_provider none "Linux" "" "riscv"
      = Except.error (unsupported_message "unknown" "Linux" "riscv") ∧
    strHasSub (unsupported_message "unknown" "Linux" "riscv") "Linux" = true ∧
    strHasSub (unsupported_message "unknown" "Linux" "riscv") "riscv" = true ∧
    (∀ pr : SystemProviderKind,
      get_system_provider none "Linux" "" "riscv" ≠ Except.ok pr)) :=
  ⟨by decide, by decide,
    claim_C8_provider_selection "apple_silicon" "Linux" "" "riscv"
      "Darwin" "Apple M1" "arm64" (by decide) (by decide)⟩

theorem somes_map_some {α β : Type} (f : α → β) :
    ∀ l : List α, somes (l.map (fun a => some (f a))) = l.map f
  | [] => rfl
  | a :: rest => by simp [somes, somes_map_some f rest]

/-- Claim C9: every successful Intel `get_metrics` call returns zero for all
four power fields and a zero GPU metrics dict; consequently a session loop
fed exclusively from the Intel provider keeps every power peak at 0, every
rolling-window average at 0, and every displayed power-utilization
percentage at 0. -/
theorem claim_C9_intel_zero_power (env : IntelEnv) (envs : List IntelEnv)
    (p : Params) (t0 : ℚ) :
    (intel_get_metrics env).1.cpu_W = 0 ∧
    (intel_get_metrics env).1.gpu_W = 0 ∧
    (intel_get_metrics env).1.package_W = 0 ∧
    (intel_get_metrics env).1.ane_W = 0 ∧
    (intel_get_metrics env).2.1.active = 0 ∧
    (intel_get_metrics env).2.1.freq_MHz = 0 ∧
    (runLoop p (initLoopState t0)
      (envs.map (fun e => some (intel_sample e)))).1.cpu_peak_power = 0 ∧
    (runLoop p (initLoopState t0)
      (envs.map (fun e => some (intel_sample e)))).1.gpu_peak_power = 0 ∧
    (runLoop p (initLoopState t0)
      (envs.map (fun e => some (intel_sample e)))).1.package_peak_power = 0 ∧
    get_avg (runLoop p (initLoopState t0)
      (envs.map (fun e => some (intel_sample e)))).1.avg_cpu_power_list = 0 ∧
    get_avg (runLoop p (initLoopState t0)
      (envs.map (fun e => some (intel_sample e)))).1.avg_gpu_power_list = 0 ∧
    (∀ x ∈ (runLoop p (initLoopState t0)
      (envs.map (fun e => some (intel_sample e)))).1.cpu_pct_log, x = 0) ∧
    (∀ x ∈ (runLoop p (initLoopState t0)
      (envs.map (fun e => some (intel_sample e)))).1.gpu_pct_log, x = 0) := by
  have hsamples : ∀ u ∈ somes (envs.map (fun e => some (intel_sample e))),
      u.cpu_W = 0 ∧ u.gpu_W = 0 ∧ u.package_W = 0 := by
    rw [somes_map_some]
    intro u hu
    rcases List.mem_map.mp hu with ⟨e, _, rfl⟩
    exact ⟨rfl, rfl, rfl⟩
  have hinit : ZeroPowerState (initLoopState t0) := by
    simp [ZeroPowerState, initLoopState]
  obtain ⟨z1, z2, z3, z4, z5, z6, z7⟩ :=
    runLoop_zero p (envs.map (fun e => some (intel_sample e)))
      (initLoopState t0) hsamples hinit
  exact ⟨rfl, rfl, rfl, rfl, rfl, rfl, z1, z2, z3,
    get_avg_of_all_zero _ z4, get_avg_of_all_zero _ z5, z6, z7⟩

/-- Intel environment used by the claim C9 witness. -/
def intel_env0 : IntelEnv := ⟨[50, 25], [2400, 2400], "Nominal", 1⟩

theorem claim_C9_witness :
    (intel_get_metrics intel_env0).1.cpu_W = 0 ∧
    (intel_get_metrics intel_env0).1.gpu_W = 0 ∧
    (intel_get_metrics intel_env0).1.package_W = 0 ∧
    (intel_get_metrics intel_env0).1.ane_W = 0 ∧
    (intel_get_metrics intel_env0).2.1.active = 0 ∧
    (intel_get_metrics intel_env0).2.1.freq_MHz = 0 ∧
    (runLoop params0 (initLoopState 0)
      ([intel_env0].map (fun e => some (intel_sample e)))).1.cpu_peak_power = 0 ∧
    (runLoop params0 (initLoopState 0)
      ([intel_env0].map (fun e => some (intel_sample e)))).1.gpu_peak_power = 0 ∧
    (runLoop params0 (initLoopState 0)
      ([intel_env0].map (fun e => some (intel_sample e)))).1.package_peak_power = 0 ∧
    get_avg (runLoop params0 (initLoopState 0)
      ([intel_env0].map (fun e => some (intel_sample e)))).1.avg_cpu_power_list = 0 ∧
    get_avg (runLoop params0 (initLoopState 0)
      ([intel_env0].map (fun e => some (intel_sample e)))).1.avg_gpu_power_list = 0 ∧
    (∀ x ∈ (runLoop params0 (initLoopState 0)
      ([intel_env0].map (fun e => some (intel_sample e)))).1.cpu_pct_log, x = 0) ∧
    (∀ x ∈ (runLoop params0 (initLoopState 0)
      ([intel_env0].map (fun e => some (intel_sample e)))).1.gpu_pct_log, x = 0) :=
  claim_C9_intel_zero_power intel_env0 [intel_env0] params0 0

/-- Claim C10: on every accepted sample, the value fed into the peak
trackers, the rolling windows, and the utilization-percentage computation is
the raw watt field divided by the sampling interval — `cpu_W / interval`,
`gpu_W / interval`, `package_W / interval` — not the raw field; and the
division coincides with the identity exactly when the interval is 1 s. -/
theorem claim_C10_watts_divided_by_interval (p : Params) (st : LoopState)
    (s : Sample) (h : 0 < p.interval) :
    (applySample p st s).avg_cpu_power_list
      = dequeAppend p.avg_capacity st.avg_cpu_power_list (s.cpu_W / p.interval) ∧
    (applySample p st s).avg_gpu_power_list
      = dequeAppend p.avg_capacity st.avg_gpu_power_list (s.gpu_W / p.interval) ∧
    (applySample p st s).cpu_peak_power
      = max st.cpu_peak_power (s.cpu_W / p.interval) ∧
    (applySample p st s).gpu_peak_power
      = max st.gpu_peak_power (s.gpu_W / p.interval) ∧
    (applySample p st s).package_peak_power
      = max st.package_peak_power (s.package_W / p.interval) ∧
    (applySample p st s).cpu_pct_log
      = st.cpu_pct_log ++ [power_pct (s.cpu_W / p.interval) p.cpu_max_power] ∧
    (applySample p st s).gpu_pct_log
      = st.gpu_pct_log ++ [power_pct (s.gpu_W / p.interval) p.gpu_max_power] ∧
    ((∀ w : ℚ, w / p.interval = w) ↔ p.interval = 1) := by
  have hmax : ∀ a b : ℚ, (if b > a then b else a) = max a b := by
    intro a b
    rcases le_or_lt b a with hab | hab
    · rw [if_neg (not_lt.mpr hab), max_eq_left hab]
    · rw [if_pos hab, max_eq_right (le_of_lt hab)]
  refine ⟨rfl, rfl, hmax _ _, hmax _ _, hmax _ _, rfl, rfl, ?_, ?_⟩
  · intro hall
    have h1 := hall 1
    rw [div_eq_one_iff_eq (ne_of_gt h)] at h1
    exact h1.symm
  · intro h1 w
    rw [h1, div_one]

theorem claim_C10_witness :
    (0 : ℚ) < params0.interval ∧
    ((applySample params0 (initLoopState 0) sample0).avg_cpu_power_list
      = dequeAppend params0.avg_capacity (initLoopState 0).avg_cpu_power_list
          (sample0.cpu_W / params0.interval) ∧
    (applySample params0 (initLoopState 0) sample0).avg_gpu_power_list
      = dequeAppend params0.avg_capacity (initLoopState 0).avg_gpu_power_list
          (sample0.gpu_W / params0.interval) ∧
    (applySample params0 (initLoopState 0) sample0).cpu_peak_power
      = max (initLoopState 0).cpu_peak_power (sample0.cpu_W / params0.interval) ∧
    (applySample params0 (initLoopState 0) sample0).gpu_peak_power
      = max (initLoopState 0).gpu_peak_power (sample0.gpu_W / params0.interval) ∧
    (applySample params0 (initLoopState 0) sample0).package_peak_power
      = max (initLoopState 0).package_peak_power
          (sample0.package_W / params0.interval) ∧
    (applySample params0 (initLoopState 0) sample0).cpu_pct_log
      = (initLoopState 0).cpu_pct_log
          ++ [power_pct (sample0.cpu_W / params0.interval) params0.cpu_max_power] ∧
    (applySample params0 (initLoopState 0) sample0).gpu_pct_log
      = (initLoopState 0).gpu_pct_log
          ++ [power_pct (sample0.gpu_W / params0.interval) params0.gpu_max_power] ∧
    ((∀ w : ℚ, w / params0.interval = w) ↔ params0.interval = 1)) :=
  ⟨by norm_num [params0],
    claim_C10_watts_divided_by_interval params0 (initLoopState 0) sample0
      (by norm_num [params0])⟩

end Vtop
